import Mathlib

set_option autoImplicit false

/-!
Shallow embedding of the core of the SkyflowFoundry `mcp-sdk` TypeScript
repository, and proofs about it.

The embedding covers:
* `src/utils/validation.ts` — `extractClusterId`, `validateVaultConfig`;
* `src/utils/entityMaps.ts` — `ENTITY_TYPES`, `ENTITY_MAP`, `isValidEntity`,
  `getEntityEnum`;
* `src/client/errors.ts` — the error taxonomy with its `code` strings;
* `src/client/SkyflowMCP.ts` — the `SkyflowMCP` client (`deidentify`,
  `reidentify`, `wrap`, constructor validation) and `createFromEnv`;
* `src/middleware/wrap.ts` — `wrapWithProtection`.

The external vault service (`skyflow-node`'s `deidentifyText` /
`reidentifyText`) is a collaborator, modelled as an oracle record of pure
fallible functions.  Asynchronous control flow in the source is strictly
sequential (each `await`ed value feeds the next step), so it is embedded as
ordinary sequential computation; every externally observable call made during
an operation is recorded in an event trace so that "the operation is invoked
exactly once" and "reidentify is never called" are statable.
-/

namespace SkyflowSdk

/-- JavaScript `a || b` on option-valued data whose present values are always
truthy (arrays, non-empty enum strings): the left operand wins whenever it is
present, even when it is an empty array. -/
def jsOrOpt {α : Type} (a b : Option α) : Option α :=
  match a with
  | some x => some x
  | none => b

/-- JavaScript string truthiness: `undefined` and `""` are falsy.
`strTruthy o` is `o`'s value when truthy and `none` otherwise. -/
def strTruthy (o : Option String) : Option String :=
  match o with
  | some s => if s = "" then none else some s
  | none => none

/-- JavaScript `a || b` on optional strings (`""` counts as falsy). -/
def jsOrStr (a b : Option String) : Option String :=
  match strTruthy a with
  | some s => some s
  | none => b

/-- `listContainsSub hay needle`: `needle` occurs as a contiguous sublist of
`hay`. -/
def listContainsSub : List Char → List Char → Bool
  | [], needle => needle.isEmpty
  | c :: t, needle => needle.isPrefixOf (c :: t) || listContainsSub t needle

/-- Substring containment on strings (used to state "error message contains
...") . -/
def strContains (hay needle : String) : Bool :=
  listContainsSub hay.data needle.data

/-! ## `src/utils/validation.ts` -/

/-- The characters of the literal `.vault` required after the captured run in
the `extractClusterId` pattern. -/
def vaultSuffix : List Char := ['.', 'v', 'a', 'u', 'l', 't']

/-- The characters of the literal `https://` scheme alternative. -/
def httpsScheme : List Char := ['h', 't', 't', 'p', 's', ':', '/', '/']

/-- The characters of the literal `http://` scheme alternative. -/
def httpScheme : List Char := ['h', 't', 't', 'p', ':', '/', '/']

/-- Match the regex fragment `([^.]+)\.vault` anchored at the head of `l`,
returning the capture group.  Because `[^.]+` can only stop where a `.`
follows, the greedy run is forced to be exactly `l.takeWhile (· != '.')`, so
no backtracking remains in this fragment. -/
def coreMatch (l : List Char) : Option (List Char) :=
  let run := l.takeWhile (fun c => c != '.')
  if run.isEmpty then none
  else if vaultSuffix.isPrefixOf (l.dropWhile (fun c => c != '.')) then some run
  else none

/-- Match `(?:https?:\/\/)?([^.]+)\.vault` anchored at the head of `l`.  A
backtracking engine tries the optional scheme group first (`https://`, then
`http://` — the two literals cannot both apply at one position), and falls
back to skipping the group. -/
def matchAt (l : List Char) : Option (List Char) :=
  jsOrOpt (if httpsScheme.isPrefixOf l then coreMatch (l.drop 8) else none)
    (jsOrOpt (if httpScheme.isPrefixOf l then coreMatch (l.drop 7) else none)
      (coreMatch l))

/-- Leftmost-match scan: JavaScript `String.prototype.match` (no `g` flag)
attempts the pattern at each start position from the left and returns the
first success. -/
def scanMatch : List Char → Option (List Char)
  | [] => none
  | c :: t =>
    match matchAt (c :: t) with
    | some r => some r
    | none => scanMatch t

/-- Embedding of `extractClusterId` (src/utils/validation.ts):
`vaultUrl.match(/(?:https?:\/\/)?([^.]+)\.vault/)` — capture group 1 of the
leftmost match, `null` (here `none`) when the pattern does not match. -/
def extractClusterId (vaultUrl : String) : Option String :=
  (scanMatch vaultUrl.data).map (fun l => ⟨l⟩)

/-- Embedding of the `VaultConfig` interface (src/utils/validation.ts).
Optional TypeScript fields are `Option`-valued; on success they are present
explicitly (possibly as `none`, the embedding of `undefined`). -/
structure VaultConfig where
  vaultId : String
  vaultUrl : String
  clusterId : String
  accountId : Option String
  workspaceId : Option String
deriving DecidableEq, Repr

/-- Embedding of the `ValidationResult` interface (src/utils/validation.ts). -/
structure ValidationResult where
  isValid : Bool
  error : Option String
  config : Option VaultConfig
deriving DecidableEq, Repr

/-- The parameter object accepted by `validateVaultConfig`; every field is
optional in the source. -/
structure VaultParams where
  vaultId : Option String
  vaultUrl : Option String
  accountId : Option String
  workspaceId : Option String
deriving DecidableEq, Repr

/-- The exact format-violation message produced by `validateVaultConfig`. -/
def invalidVaultUrlMsg : String :=
  "Invalid vaultUrl format. Expected format: https://<clusterId>.vault.skyflowapis.com"

/-- Embedding of `validateVaultConfig` (src/utils/validation.ts).  The source
guards are JavaScript falsiness tests (`!params.vaultId`, `!params.vaultUrl`,
`!clusterId`), so `undefined` and `""` both fail them. -/
def validateVaultConfig (params : VaultParams) : ValidationResult :=
  match strTruthy params.vaultId with
  | none => ⟨false, some "vaultId is required", none⟩
  | some vid =>
    match strTruthy params.vaultUrl with
    | none => ⟨false, some "vaultUrl is required", none⟩
    | some vurl =>
      match extractClusterId vurl with
      | none => ⟨false, some invalidVaultUrlMsg, none⟩
      | some cid =>
        if cid = "" then ⟨false, some invalidVaultUrlMsg, none⟩
        else ⟨true, none, some ⟨vid, vurl, cid, params.accountId, params.workspaceId⟩⟩

/-! ## `src/utils/entityMaps.ts` -/

/-- Embedding of the `ENTITY_TYPES` array: the closed entity vocabulary. -/
def ENTITY_TYPES : List String :=
  ["age", "bank_account", "credit_card", "credit_card_expiration", "cvv",
   "date", "date_interval", "dob", "driver_license", "email_address",
   "healthcare_number", "ip_address", "location", "name", "numerical_pii",
   "phone_number", "ssn", "url", "vehicle_id", "medical_code", "name_family",
   "name_given", "account_number", "event", "filename", "gender", "language",
   "location_address", "location_city", "location_coordinate",
   "location_country", "location_state", "location_zip", "marital_status",
   "money", "name_medical_professional", "occupation", "organization",
   "organization_medical_facility", "origin", "passport_number", "password",
   "physical_attribute", "political_affiliation", "religion", "time",
   "username", "zodiac_sign", "blood_type", "condition", "dose", "drug",
   "injury", "medical_process", "statistics", "routing_number",
   "corporate_action", "financial_metric", "product", "trend", "duration",
   "location_address_street", "all", "sexuality", "effect", "project",
   "organization_id", "day", "month"]

/-- Stand-in for the external `DetectEntities` enum member selected by
`ENTITY_MAP`; the member is identified by the vocabulary key that maps to it.
(The `skyflow-node` enum is external to this repository; its members are
non-empty strings, hence truthy.) -/
structure DetectEntity where
  name : String
deriving DecidableEq, Repr

/-- Embedding of the `ENTITY_MAP` record: its keys are exactly the entries of
`ENTITY_TYPES`, so property lookup succeeds precisely on vocabulary members. -/
def ENTITY_MAP (entity : String) : Option DetectEntity :=
  if ENTITY_TYPES.contains entity then some ⟨entity⟩ else none

/-- Embedding of `isValidEntity` (src/utils/entityMaps.ts): the JavaScript
`entity in ENTITY_MAP` own-property test, i.e. key membership. -/
def isValidEntity (entity : String) : Bool :=
  (ENTITY_MAP entity).isSome

/-- Embedding of `getEntityEnum` (src/utils/entityMaps.ts): looks the name up
in `ENTITY_MAP` and throws `Invalid entity type: <entity>` when the lookup
yields `undefined` (falsy). -/
def getEntityEnum (entity : String) : Except String DetectEntity :=
  match ENTITY_MAP entity with
  | some v => Except.ok v
  | none => Except.error ("Invalid entity type: " ++ entity)

/-! ## `src/client/types.ts` -/

/-- Embedding of the `TokenType` union (src/client/types.ts). -/
inductive TokenType
  | VAULT_TOKEN
  | ENTITY_UNIQUE_COUNTER
  | ENTITY_ONLY
deriving DecidableEq, Repr

/-- Embedding of `SkyflowCredentials` (src/client/types.ts): either a bearer
token or an API key. -/
inductive SkyflowCredentials
  | token (t : String)
  | apiKey (k : String)
deriving DecidableEq, Repr

/-- Embedding of `SkyflowMCPOptions` (src/client/types.ts). -/
structure SkyflowMCPOptions where
  defaultTokenType : Option TokenType
  defaultEntities : Option (List String)
deriving DecidableEq, Repr

/-- Embedding of `SkyflowMCPConfig` (src/client/types.ts). -/
structure SkyflowMCPConfig where
  vaultId : String
  vaultUrl : String
  credentials : SkyflowCredentials
  accountId : Option String
  workspaceId : Option String
  options : Option SkyflowMCPOptions
deriving DecidableEq, Repr

/-- Embedding of `DeidentifyOptions` (src/client/types.ts).  Entity names are
carried as strings, as the per-call values ultimately come from callers. -/
structure DeidentifyOptions where
  tokenType : Option TokenType
  entities : Option (List String)
deriving DecidableEq, Repr

/-- Embedding of `EntityInfo` (src/client/types.ts).  The index/score fields
are never consulted by the code under verification, so only the identifying
fields are carried. -/
structure EntityInfo where
  token : Option String
  value : Option String
  entity : Option String
deriving DecidableEq, Repr

/-- Embedding of `DeidentifyResult` (src/client/types.ts). -/
structure DeidentifyResult where
  processedText : String
  entities : Option (List EntityInfo)
  wordCount : Option Nat
  charCount : Option Nat
deriving DecidableEq, Repr

/-- Embedding of `ReidentifyResult` (src/client/types.ts). -/
structure ReidentifyResult where
  processedText : String
deriving DecidableEq, Repr

/-- Embedding of `WrapOptions` (src/client/types.ts): `DeidentifyOptions`
plus the `reidentifyOutput` switch. -/
structure WrapOptions where
  tokenType : Option TokenType
  entities : Option (List String)
  reidentifyOutput : Option Bool
deriving DecidableEq, Repr

/-- The view of a `WrapOptions` value as the `DeidentifyOptions` it carries
(in the source `WrapOptions extends DeidentifyOptions` and the whole object
is passed to `deidentify`, which reads only these two fields). -/
def WrapOptions.toDeidentifyOptions (o : WrapOptions) : DeidentifyOptions :=
  ⟨o.tokenType, o.entities⟩

/-! ## `src/client/errors.ts` and the external service -/

/-- Failures raised by the external `skyflow-node` calls: either a structured
`SkyflowError` (whose `error?.http_code` / `error?.details` may be absent) or
any other `Error`. -/
inductive ExtError
  | skyflow (message : String) (httpCode : Option Int) (details : Option String)
  | generic (message : String)
deriving DecidableEq, Repr

/-- The `message` of an external failure. -/
def ExtError.message : ExtError → String
  | .skyflow m _ _ => m
  | .generic m => m

/-- Embedding of the error taxonomy of src/client/errors.ts.  Every error
carries its message and optional chained cause; the deidentify/reidentify
kinds additionally carry the optional HTTP-like code and details payload. -/
inductive SkyflowMCPError
  | configuration (message : String) (cause : Option ExtError)
  | authentication (message : String) (cause : Option ExtError)
  | deidentifyErr (message : String) (httpCode : Option Int) (details : Option String)
      (cause : Option ExtError)
  | reidentifyErr (message : String) (httpCode : Option Int) (details : Option String)
      (cause : Option ExtError)
deriving DecidableEq, Repr

/-- The machine-readable `code` string each error class sets in its
constructor (src/client/errors.ts). -/
def SkyflowMCPError.code : SkyflowMCPError → String
  | .configuration _ _ => "CONFIGURATION_ERROR"
  | .authentication _ _ => "AUTHENTICATION_ERROR"
  | .deidentifyErr _ _ _ _ => "DEIDENTIFY_ERROR"
  | .reidentifyErr _ _ _ _ => "REIDENTIFY_ERROR"

/-- The `message` carried by an SDK error. -/
def SkyflowMCPError.message : SkyflowMCPError → String
  | .configuration m _ => m
  | .authentication m _ => m
  | .deidentifyErr m _ _ _ => m
  | .reidentifyErr m _ _ _ => m

/-- Runtime values a caller-supplied operation may return, with just enough
structure for the envelope's `typeof` tests: strings, plain objects
(association lists of fields), `null`, booleans and numbers. -/
inductive JSValue
  | str (s : String)
  | obj (fields : List (String × JSValue))
  | nullv
  | boolv (b : Bool)
  | num (n : Int)

/-- `typeof result === "string"`. -/
def JSValue.isStr : JSValue → Bool
  | .str _ => true
  | _ => false

/-- JavaScript property read `fields[key]` on a plain object: the value of
the (unique) field with that name, `undefined` when absent. -/
def lookupField : List (String × JSValue) → String → Option JSValue
  | [], _ => none
  | (k, v) :: rest, key => if k = key then some v else lookupField rest key

/-- The object spread `{...fields, [key]: v}` when `key` is already a field:
same fields in the same order, with the `key` field's value replaced. -/
def setField (fields : List (String × JSValue)) (key : String) (v : JSValue) :
    List (String × JSValue) :=
  fields.map (fun p => if p.1 = key then (p.1, v) else p)

/-- The request the client hands to the external `deidentifyText` call: the
text, the token format chosen by the default cascade, and the mapped entity
enums when a non-empty entity list was configured. -/
structure DeidRequest where
  text : String
  tokenType : TokenType
  entities : Option (List DetectEntity)
deriving DecidableEq, Repr

/-- The external `deidentifyText` response shape consumed by the client. -/
structure ExtDeidResponse where
  processedText : String
  entities : Option (List EntityInfo)
  wordCount : Option Nat
  charCount : Option Nat
deriving DecidableEq, Repr

/-- Oracle for the external vault service: the two fallible calls the client
delegates to (`skyflow.detect().deidentifyText` / `.reidentifyText`). -/
structure ExtServices where
  deidentifyText : DeidRequest → Except ExtError ExtDeidResponse
  reidentifyText : String → Except ExtError String

/-- Externally observable calls made during one client operation, in order:
calls to the external deidentify and reidentify capabilities and invocations
of the caller-supplied operation. -/
inductive CallEvent
  | deid (req : DeidRequest)
  | op (text : String)
  | reid (text : String)
deriving DecidableEq, Repr

/-- The arguments of the operation invocations in a trace. -/
def opCalls (tr : List CallEvent) : List String :=
  tr.filterMap fun e =>
    match e with
    | .op t => some t
    | _ => none

/-- The arguments of the external reidentify calls in a trace. -/
def reidCalls (tr : List CallEvent) : List String :=
  tr.filterMap fun e =>
    match e with
    | .reid t => some t
    | _ => none

/-- The requests of the external deidentify calls in a trace. -/
def deidCalls (tr : List CallEvent) : List DeidRequest :=
  tr.filterMap fun e =>
    match e with
    | .deid r => some r
    | _ => none

/-! ## `src/client/SkyflowMCP.ts` -/

/-- The state a constructed `SkyflowMCP` instance holds (the SDK handle is
external and carries no logic of this repository). -/
structure SkyflowMCP where
  vaultId : String
  config : SkyflowMCPConfig
deriving DecidableEq, Repr

/-- Embedding of the `SkyflowMCP` constructor: validates the configuration
with `validateVaultConfig` and throws `ConfigurationError(validation.error ||
"Invalid configuration")` unless `validation.isValid && validation.config`.
(The subsequent `new Skyflow(...)` SDK initialization is external; its
failure would be rethrown as a `ConfigurationError` but involves no logic of
this repository, so it is modelled as succeeding.) -/
def SkyflowMCP.create (config : SkyflowMCPConfig) : Except SkyflowMCPError SkyflowMCP :=
  let validation := validateVaultConfig
    ⟨some config.vaultId, some config.vaultUrl, config.accountId, config.workspaceId⟩
  if validation.isValid then
    match validation.config with
    | some vc => Except.ok ⟨vc.vaultId, config⟩
    | none =>
      Except.error (.configuration ((strTruthy validation.error).getD "Invalid configuration") none)
  else
    Except.error (.configuration ((strTruthy validation.error).getD "Invalid configuration") none)

/-- `entities.map((e) => getEntityEnum(e))`: maps left to right, propagating
the first `Invalid entity type` throw. -/
def mapEntities : List String → Except String (List DetectEntity)
  | [] => Except.ok []
  | e :: rest =>
    match getEntityEnum e with
    | Except.error msg => Except.error msg
    | Except.ok v =>
      match mapEntities rest with
      | Except.error msg => Except.error msg
      | Except.ok vs => Except.ok (v :: vs)

/-- The `catch` clause of `SkyflowMCP.deidentify`: a `SkyflowError` becomes a
`DeidentifyError` carrying its message, numeric `http_code` and `details`,
any other `Error` becomes a `DeidentifyError` with no code/details; the
original failure is attached as the chained cause in both cases. -/
def wrapDeidExtError : ExtError → SkyflowMCPError
  | .skyflow m h d => .deidentifyErr m h d (some (.skyflow m h d))
  | .generic m => .deidentifyErr m none none (some (.generic m))

/-- The `catch` clause of `SkyflowMCP.reidentify`, symmetric to
`wrapDeidExtError`. -/
def wrapReidExtError : ExtError → SkyflowMCPError
  | .skyflow m h d => .reidentifyErr m h d (some (.skyflow m h d))
  | .generic m => .reidentifyErr m none none (some (.generic m))

/-- The tail of `SkyflowMCP.deidentify`'s `try` block: issue the external
call and build the `DeidentifyResult` (optional fields copied when present),
or wrap the failure. -/
def deidentifyCallExt (svc : ExtServices) (req : DeidRequest) :
    Except SkyflowMCPError DeidentifyResult × List CallEvent :=
  match svc.deidentifyText req with
  | Except.ok resp =>
    (Except.ok ⟨resp.processedText, resp.entities, resp.wordCount, resp.charCount⟩, [.deid req])
  | Except.error e => (Except.error (wrapDeidExtError e), [.deid req])

/-- Embedding of `SkyflowMCP.deidentify`.  Token type cascade: per-call
`options?.tokenType || this.config.options?.defaultTokenType ||
"VAULT_TOKEN"`.  Entity cascade: `options?.entities ||
this.config.options?.defaultEntities` (any array is truthy, so a per-call
empty array wins); the entity enums are mapped — throwing inside the `try`
on an invalid name, before the external call — only when the effective list
is non-empty. -/
def SkyflowMCP.deidentify (c : SkyflowMCP) (svc : ExtServices) (text : String)
    (options : Option DeidentifyOptions) :
    Except SkyflowMCPError DeidentifyResult × List CallEvent :=
  let tokenType :=
    (jsOrOpt (options.bind DeidentifyOptions.tokenType)
      (c.config.options.bind SkyflowMCPOptions.defaultTokenType)).getD TokenType.VAULT_TOKEN
  match jsOrOpt (options.bind DeidentifyOptions.entities)
      (c.config.options.bind SkyflowMCPOptions.defaultEntities) with
  | some ents =>
    if 0 < ents.length then
      match mapEntities ents with
      | Except.error msg =>
        (Except.error (.deidentifyErr msg none none (some (.generic msg))), [])
      | Except.ok enums => deidentifyCallExt svc ⟨text, tokenType, some enums⟩
    else deidentifyCallExt svc ⟨text, tokenType, none⟩
  | none => deidentifyCallExt svc ⟨text, tokenType, none⟩

/-- Embedding of `SkyflowMCP.reidentify`. -/
def SkyflowMCP.reidentify (_c : SkyflowMCP) (svc : ExtServices) (text : String) :
    Except SkyflowMCPError ReidentifyResult × List CallEvent :=
  match svc.reidentifyText text with
  | Except.ok processed => (Except.ok ⟨processed⟩, [.reid text])
  | Except.error e => (Except.error (wrapReidExtError e), [.reid text])

/-- The output half of `SkyflowMCP.wrap` (everything after the operation has
produced `result`): reidentify exactly when `options?.reidentifyOutput !==
false` and the result is a string, otherwise return the result unchanged. -/
def wrapOutputPhase (c : SkyflowMCP) (svc : ExtServices) (options : Option WrapOptions)
    (result : JSValue) (tr : List CallEvent) :
    Except SkyflowMCPError JSValue × List CallEvent :=
  match options.bind WrapOptions.reidentifyOutput, result with
  | some false, r => (Except.ok r, tr)
  | _, JSValue.str s =>
    (match c.reidentify svc s with
     | (Except.ok rr, tr2) => (Except.ok (JSValue.str rr.processedText), tr ++ tr2)
     | (Except.error e, tr2) => (Except.error e, tr ++ tr2))
  | _, r => (Except.ok r, tr)

/-- Embedding of `SkyflowMCP.wrap`: deidentify the input (passing the whole
options object on as `DeidentifyOptions`), invoke the operation once on the
processed text, then run the output phase. -/
def SkyflowMCP.wrap (c : SkyflowMCP) (svc : ExtServices) (input : String)
    (operation : String → JSValue) (options : Option WrapOptions) :
    Except SkyflowMCPError JSValue × List CallEvent :=
  match c.deidentify svc input (options.map WrapOptions.toDeidentifyOptions) with
  | (Except.error e, tr) => (Except.error e, tr)
  | (Except.ok dr, tr) =>
    wrapOutputPhase c svc options (operation dr.processedText)
      (tr ++ [CallEvent.op dr.processedText])

/-! ## `src/middleware/wrap.ts` -/

/-- Embedding of `WrapWithProtectionOptions` (src/middleware/wrap.ts).  The
`onDeidentify`/`onReidentify` observer callbacks are pure effects with no
influence on control flow or data and are not modelled. -/
structure WrapWithProtectionOptions where
  tokenType : Option TokenType
  entities : Option (List String)
  reidentifyOutput : Option Bool
  reidentifyField : Option String
deriving DecidableEq, Repr

/-- The output half of `wrapWithProtection` (everything after the operation
has produced `result` — step 3 of the envelope contract): if
`reidentifyOutput` (destructured with default `true`) is `false` return the
raw result; a string result is reidentified and replaced; an object result is
shallow-copied with the `reidentifyField`-named field replaced when that
option is truthy (a non-empty name) and the field currently holds a string;
anything else passes through unchanged. -/
def wwpOutputPhase (client : SkyflowMCP) (svc : ExtServices)
    (options : WrapWithProtectionOptions) (result : JSValue) (tr : List CallEvent) :
    Except SkyflowMCPError JSValue × List CallEvent :=
  if options.reidentifyOutput.getD true = false then (Except.ok result, tr)
  else
    match result with
    | JSValue.str s =>
      (match client.reidentify svc s with
       | (Except.ok rr, tr2) => (Except.ok (JSValue.str rr.processedText), tr ++ tr2)
       | (Except.error e, tr2) => (Except.error e, tr ++ tr2))
    | r =>
      match strTruthy options.reidentifyField, r with
      | some f, JSValue.obj fields =>
        (match lookupField fields f with
         | some (JSValue.str fv) =>
           (match client.reidentify svc fv with
            | (Except.ok rr, tr2) =>
              (Except.ok (JSValue.obj (setField fields f (JSValue.str rr.processedText))),
               tr ++ tr2)
            | (Except.error e, tr2) => (Except.error e, tr ++ tr2))
         | _ => (Except.ok r, tr))
      | _, _ => (Except.ok r, tr)

/-- Embedding of `wrapWithProtection` (src/middleware/wrap.ts): deidentify
the input with the destructured `DeidentifyOptions`, invoke the operation
once on the processed text, then run the output phase. -/
def wrapWithProtection (client : SkyflowMCP) (svc : ExtServices) (input : String)
    (operation : String → JSValue) (options : WrapWithProtectionOptions) :
    Except SkyflowMCPError JSValue × List CallEvent :=
  match client.deidentify svc input (some ⟨options.tokenType, options.entities⟩) with
  | (Except.error e, tr) => (Except.error e, tr)
  | (Except.ok dr, tr) =>
    wwpOutputPhase client svc options (operation dr.processedText)
      (tr ++ [CallEvent.op dr.processedText])

/-- The text (if any) that the `wrapWithProtection` output phase submits to
the external reidentify capability, as a function of the options and the
operation's result; mirrors the decision tree of `wwpOutputPhase` so that
trace facts can be separated from service behavior. -/
def reidTargetWWP (options : WrapWithProtectionOptions) (result : JSValue) : Option String :=
  if options.reidentifyOutput.getD true = false then none
  else
    match result with
    | JSValue.str s => some s
    | r =>
      match strTruthy options.reidentifyField, r with
      | some f, JSValue.obj fields =>
        (match lookupField fields f with
         | some (JSValue.str fv) => some fv
         | _ => none)
      | _, _ => none

/-- The text (if any) that the `SkyflowMCP.wrap` output phase submits to the
external reidentify capability. -/
def reidTargetWrap (options : Option WrapOptions) (result : JSValue) : Option String :=
  match options.bind WrapOptions.reidentifyOutput, result with
  | some false, _ => none
  | _, JSValue.str s => some s
  | _, _ => none

/-! ## `createFromEnv` (src/client/SkyflowMCP.ts) -/

/-- The six environment variables `createFromEnv` reads. -/
structure Env where
  SKYFLOW_VAULT_ID : Option String
  SKYFLOW_VAULT_URL : Option String
  SKYFLOW_API_KEY : Option String
  SKYFLOW_BEARER_TOKEN : Option String
  SKYFLOW_ACCOUNT_ID : Option String
  SKYFLOW_WORKSPACE_ID : Option String
deriving DecidableEq, Repr

/-- The optional `Partial<SkyflowMCPConfig>` overrides accepted by
`createFromEnv`. -/
structure ConfigOverrides where
  vaultId : Option String
  vaultUrl : Option String
  credentials : Option SkyflowCredentials
  accountId : Option String
  workspaceId : Option String
  options : Option SkyflowMCPOptions
deriving DecidableEq, Repr

/-- Embedding of `createFromEnv` (src/client/SkyflowMCP.ts): resolves vault
id and url from overrides then environment (JS `||`, so `""` falls
through), fails with a distinct `ConfigurationError` when either is missing
or when neither credential form is available, prefers the bearer token over
the API key, and hands the assembled config to the `SkyflowMCP`
constructor. -/
def createFromEnv (env : Env) (overrides : Option ConfigOverrides) :
    Except SkyflowMCPError SkyflowMCP :=
  let vaultId := jsOrStr (overrides.bind ConfigOverrides.vaultId) env.SKYFLOW_VAULT_ID
  let vaultUrl := jsOrStr (overrides.bind ConfigOverrides.vaultUrl) env.SKYFLOW_VAULT_URL
  match strTruthy vaultId with
  | none => Except.error (.configuration "SKYFLOW_VAULT_ID environment variable is required" none)
  | some vid =>
    match strTruthy vaultUrl with
    | none =>
      Except.error (.configuration "SKYFLOW_VAULT_URL environment variable is required" none)
    | some vurl =>
      match jsOrOpt (overrides.bind ConfigOverrides.credentials)
          (match strTruthy env.SKYFLOW_BEARER_TOKEN with
           | some b => some (SkyflowCredentials.token b)
           | none =>
             match strTruthy env.SKYFLOW_API_KEY with
             | some k => some (SkyflowCredentials.apiKey k)
             | none => none) with
      | none =>
        Except.error (.configuration
          "Either SKYFLOW_BEARER_TOKEN or SKYFLOW_API_KEY environment variable is required" none)
      | some creds =>
        SkyflowMCP.create
          ⟨vid, vurl, creds,
           jsOrStr (overrides.bind ConfigOverrides.accountId) env.SKYFLOW_ACCOUNT_ID,
           jsOrStr (overrides.bind ConfigOverrides.workspaceId) env.SKYFLOW_WORKSPACE_ID,
           overrides.bind ConfigOverrides.options⟩

/-! ## Claim-side definition for the cluster-extraction reading -/

/-- Claim-side reading: strip a *leading* `http://` or `https://` scheme
only. -/
def specStripScheme (l : List Char) : List Char :=
  if httpsScheme.isPrefixOf l then l.drop 8
  else if httpScheme.isPrefixOf l then l.drop 7
  else l

/-- Claim-side reading: the prefix of `l` before the first occurrence of the
substring `.vault`, or `none` when `.vault` does not occur at all. -/
def specBeforeFirstVault : List Char → Option (List Char)
  | [] => none
  | c :: t =>
    if vaultSuffix.isPrefixOf (c :: t) then some []
    else (specBeforeFirstVault t).map (fun p => c :: p)

/-- Definition following the words of the claim about `extractClusterId`
(not the source): "the run of non-dot characters immediately preceding the
first occurrence of the substring `.vault` anywhere in s (after optionally
skipping a leading `http://` or `https://`)".  Used only to compare the
claim's reading against the embedded source function. -/
def specRunBeforeFirstVault (s : String) : Option String :=
  (specBeforeFirstVault (specStripScheme s.data)).map
    (fun p => ⟨(p.reverse.takeWhile (fun c => c != '.')).reverse⟩)

/-! ## Concrete fixtures (stub collaborators used by witnesses) -/

/-- Stub external service: deidentify always yields the token text, and
reidentify always yields the original email, as in the spec's envelope test
sketch. -/
def stubServices : ExtServices :=
  ⟨fun _ => Except.ok ⟨"[EMAIL_ADDRESS_abc123]", none, none, none⟩,
   fun _ => Except.ok "john@example.com"⟩

/-- Stub external service whose deidentify call always fails with a
structured `SkyflowError`. -/
def stubFailServices : ExtServices :=
  ⟨fun _ => Except.error (ExtError.skyflow "Service unavailable" (some 503) (some "quota")),
   fun _ => Except.error (ExtError.generic "unreachable")⟩

/-- A concretely configured client instance. -/
def stubClient : SkyflowMCP :=
  ⟨"vault-123",
   ⟨"vault-123", "https://abc123.vault.skyflowapis.com",
    SkyflowCredentials.token "tok", none, none, none⟩⟩

/-- Operation that echoes its protected input back as a string. -/
def echoOp : String → JSValue := fun t => JSValue.str t

/-- Operation returning a structured value whose `output` field holds the
protected text and whose `other` field is unrelated. -/
def objOp : String → JSValue :=
  fun t => JSValue.obj [("output", JSValue.str t), ("other", JSValue.str "x")]

/-- The error `stubFailServices` causes `SkyflowMCP.deidentify` to produce. -/
def stubFailErr : SkyflowMCPError :=
  SkyflowMCPError.deidentifyErr "Service unavailable" (some 503) (some "quota")
    (some (ExtError.skyflow "Service unavailable" (some 503) (some "quota")))

/-- Environment with every credential variable set (bearer and API key). -/
def envFull : Env :=
  ⟨some "vault-123", some "https://abc123.vault.skyflowapis.com",
   some "api-key-unused", some "bearer-tok", none, none⟩

/-! ## Helper lemmas about traces -/

@[simp] theorem opCalls_nil : opCalls [] = [] := rfl

@[simp] theorem reidCalls_nil : reidCalls [] = [] := rfl

@[simp] theorem opCalls_append (a b : List CallEvent) :
    opCalls (a ++ b) = opCalls a ++ opCalls b := by
  simp [opCalls, List.filterMap_append]

@[simp] theorem reidCalls_append (a b : List CallEvent) :
    reidCalls (a ++ b) = reidCalls a ++ reidCalls b := by
  simp [reidCalls, List.filterMap_append]

@[simp] theorem opCalls_cons_deid (r : DeidRequest) (tr : List CallEvent) :
    opCalls (CallEvent.deid r :: tr) = opCalls tr := rfl

@[simp] theorem opCalls_cons_op (t : String) (tr : List CallEvent) :
    opCalls (CallEvent.op t :: tr) = t :: opCalls tr := rfl

@[simp] theorem opCalls_cons_reid (t : String) (tr : List CallEvent) :
    opCalls (CallEvent.reid t :: tr) = opCalls tr := rfl

@[simp] theorem reidCalls_cons_deid (r : DeidRequest) (tr : List CallEvent) :
    reidCalls (CallEvent.deid r :: tr) = reidCalls tr := rfl

@[simp] theorem reidCalls_cons_op (t : String) (tr : List CallEvent) :
    reidCalls (CallEvent.op t :: tr) = reidCalls tr := rfl

@[simp] theorem reidCalls_cons_reid (t : String) (tr : List CallEvent) :
    reidCalls (CallEvent.reid t :: tr) = t :: reidCalls tr := rfl

@[simp] theorem opCalls_deid_event (r : DeidRequest) : opCalls [CallEvent.deid r] = [] := rfl

@[simp] theorem opCalls_op_event (t : String) : opCalls [CallEvent.op t] = [t] := rfl

@[simp] theorem opCalls_reid_event (t : String) : opCalls [CallEvent.reid t] = [] := rfl

@[simp] theorem reidCalls_deid_event (r : DeidRequest) : reidCalls [CallEvent.deid r] = [] := rfl

@[simp] theorem reidCalls_op_event (t : String) : reidCalls [CallEvent.op t] = [] := rfl

@[simp] theorem reidCalls_reid_event (t : String) : reidCalls [CallEvent.reid t] = [t] := rfl

theorem reidentify_trace (c : SkyflowMCP) (svc : ExtServices) (s : String) :
    (c.reidentify svc s).2 = [CallEvent.reid s] := by
  unfold SkyflowMCP.reidentify
  cases svc.reidentifyText s <;> rfl

theorem deidentifyCallExt_trace (svc : ExtServices) (req : DeidRequest) :
    (deidentifyCallExt svc req).2 = [CallEvent.deid req] := by
  unfold deidentifyCallExt
  cases svc.deidentifyText req <;> rfl

theorem deidentify_trace_shape (c : SkyflowMCP) (svc : ExtServices) (text : String)
    (o : Option DeidentifyOptions) :
    (c.deidentify svc text o).2 = []
      ∨ ∃ req, (c.deidentify svc text o).2 = [CallEvent.deid req] := by
  unfold SkyflowMCP.deidentify
  split
  · split
    · split
      · exact Or.inl rfl
      · exact Or.inr ⟨_, deidentifyCallExt_trace svc _⟩
    · exact Or.inr ⟨_, deidentifyCallExt_trace svc _⟩
  · exact Or.inr ⟨_, deidentifyCallExt_trace svc _⟩

theorem opCalls_deidentify (c : SkyflowMCP) (svc : ExtServices) (text : String)
    (o : Option DeidentifyOptions) :
    opCalls (c.deidentify svc text o).2 = [] := by
  rcases deidentify_trace_shape c svc text o with h | ⟨req, h⟩ <;> rw [h] <;> rfl

theorem reidCalls_deidentify (c : SkyflowMCP) (svc : ExtServices) (text : String)
    (o : Option DeidentifyOptions) :
    reidCalls (c.deidentify svc text o).2 = [] := by
  rcases deidentify_trace_shape c svc text o with h | ⟨req, h⟩ <;> rw [h] <;> rfl

/-! ## Helper lemmas about error shapes and options -/

theorem wrapDeidExtError_shape (x : ExtError) :
    ∃ m h d cause, wrapDeidExtError x = SkyflowMCPError.deidentifyErr m h d (some cause) := by
  cases x <;> exact ⟨_, _, _, _, rfl⟩

theorem deidentifyCallExt_error_shape (svc : ExtServices) (req : DeidRequest)
    (e : SkyflowMCPError) (he : (deidentifyCallExt svc req).1 = Except.error e) :
    ∃ x, svc.deidentifyText req = Except.error x ∧ e = wrapDeidExtError x := by
  unfold deidentifyCallExt at he
  cases hx : svc.deidentifyText req with
  | ok r => rw [hx] at he; simp at he
  | error x =>
    rw [hx] at he
    simp at he
    exact ⟨x, rfl, he.symm⟩

theorem deidentify_error_shape (c : SkyflowMCP) (svc : ExtServices) (text : String)
    (o : Option DeidentifyOptions) (e : SkyflowMCPError)
    (he : (c.deidentify svc text o).1 = Except.error e) :
    ∃ m h d cause, e = SkyflowMCPError.deidentifyErr m h d (some cause) := by
  unfold SkyflowMCP.deidentify at he
  split at he
  · split at he
    · split at he
      · simp at he
        exact ⟨_, _, _, _, he.symm⟩
      · obtain ⟨x, _, hx⟩ := deidentifyCallExt_error_shape svc _ e he
        rw [hx]; exact wrapDeidExtError_shape x
    · obtain ⟨x, _, hx⟩ := deidentifyCallExt_error_shape svc _ e he
      rw [hx]; exact wrapDeidExtError_shape x
  · obtain ⟨x, _, hx⟩ := deidentifyCallExt_error_shape svc _ e he
    rw [hx]; exact wrapDeidExtError_shape x

theorem deidentify_error_code (c : SkyflowMCP) (svc : ExtServices) (text : String)
    (o : Option DeidentifyOptions) (e : SkyflowMCPError)
    (he : (c.deidentify svc text o).1 = Except.error e) :
    e.code = "DEIDENTIFY_ERROR" := by
  obtain ⟨m, h, d, cause, hx⟩ := deidentify_error_shape c svc text o e he
  rw [hx]; rfl

theorem strTruthy_eq_some_iff (o : Option String) (f : String) :
    strTruthy o = some f ↔ o = some f ∧ f ≠ "" := by
  cases o with
  | none => simp [strTruthy]
  | some s =>
    by_cases hs : s = ""
    · subst hs
      constructor
      · intro h
        exact absurd h (by simp [strTruthy])
      · rintro ⟨h1, h2⟩
        injection h1 with h1'
        exact absurd h1'.symm h2
    · have hstep : strTruthy (some s) = some s := by simp [strTruthy, hs]
      rw [hstep]
      constructor
      · intro h
        injection h with h'
        subst h'
        exact ⟨rfl, hs⟩
      · rintro ⟨h1, h2⟩
        exact h1

theorem getD_true_eq_false_iff (o : Option Bool) : o.getD true = false ↔ o = some false := by
  cases o <;> simp

theorem jsOrOpt_eq_some {α : Type} (a b : Option α) (r : α) (h : jsOrOpt a b = some r) :
    a = some r ∨ b = some r := by
  cases a with
  | some x => exact Or.inl h
  | none => exact Or.inr h

theorem ite_none_eq_some {α : Type} {c : Prop} [Decidable c] {x : Option α} {r : α}
    (h : (if c then x else none) = some r) : x = some r := by
  by_cases hc : c
  · rwa [if_pos hc] at h
  · rw [if_neg hc] at h
    exact absurd h (by simp)

/-- With no overrides, `createFromEnv` reduces to a decision tree over the
truthiness of the four credential/identity environment variables. -/
theorem createFromEnv_none (env : Env) :
    createFromEnv env none
      = (match strTruthy env.SKYFLOW_VAULT_ID with
         | none =>
           Except.error (SkyflowMCPError.configuration
             "SKYFLOW_VAULT_ID environment variable is required" none)
         | some vid =>
           match strTruthy env.SKYFLOW_VAULT_URL with
           | none =>
             Except.error (SkyflowMCPError.configuration
               "SKYFLOW_VAULT_URL environment variable is required" none)
           | some vurl =>
             match (match strTruthy env.SKYFLOW_BEARER_TOKEN with
                    | some b => some (SkyflowCredentials.token b)
                    | none =>
                      match strTruthy env.SKYFLOW_API_KEY with
                      | some k => some (SkyflowCredentials.apiKey k)
                      | none => none) with
             | none =>
               Except.error (SkyflowMCPError.configuration
                 "Either SKYFLOW_BEARER_TOKEN or SKYFLOW_API_KEY environment variable is required"
                 none)
             | some creds =>
               SkyflowMCP.create
                 ⟨vid, vurl, creds, env.SKYFLOW_ACCOUNT_ID, env.SKYFLOW_WORKSPACE_ID, none⟩) :=
  rfl

theorem create_ok_config (cfg : SkyflowMCPConfig) (cl : SkyflowMCP)
    (h : SkyflowMCP.create cfg = Except.ok cl) : cl.config = cfg := by
  simp only [SkyflowMCP.create] at h
  split at h
  · split at h
    · injection h with h'
      rw [← h']
    · exact Except.noConfusion h
  · exact Except.noConfusion h

/-! ## Helper lemmas about `extractClusterId` -/

theorem coreMatch_pos (l r : List Char) (h : coreMatch l = some r) : 0 < r.length := by
  unfold coreMatch at h
  by_cases h1 : (l.takeWhile (fun c => c != '.')).isEmpty
  · simp [h1] at h
  · by_cases h2 : vaultSuffix.isPrefixOf (l.dropWhile (fun c => c != '.'))
    · simp [h1, h2] at h
      have hne : l.takeWhile (fun c => c != '.') ≠ [] := by
        intro hnil
        rw [hnil] at h1
        exact h1 rfl
      rw [← h]
      exact List.length_pos.2 hne
    · simp [h1, h2] at h

theorem matchAt_pos (l r : List Char) (h : matchAt l = some r) : 0 < r.length := by
  unfold matchAt at h
  rcases jsOrOpt_eq_some _ _ _ h with h' | h'
  · exact coreMatch_pos _ _ (ite_none_eq_some h')
  · rcases jsOrOpt_eq_some _ _ _ h' with h'' | h''
    · exact coreMatch_pos _ _ (ite_none_eq_some h'')
    · exact coreMatch_pos _ _ h''

theorem scanMatch_pos (l : List Char) (r : List Char) (h : scanMatch l = some r) :
    0 < r.length := by
  induction l with
  | nil => simp [scanMatch] at h
  | cons c t ih =>
    unfold scanMatch at h
    cases hm : matchAt (c :: t) with
    | some r' =>
      rw [hm] at h
      simp at h
      rw [← h]
      exact matchAt_pos _ _ hm
    | none =>
      rw [hm] at h
      exact ih h

theorem extractClusterId_pos (s : String) (c : String) (h : extractClusterId s = some c) :
    0 < c.length := by
  unfold extractClusterId at h
  cases hm : scanMatch s.data with
  | none =>
    rw [hm] at h
    simp at h
  | some l =>
    rw [hm] at h
    simp at h
    rw [← h]
    exact scanMatch_pos s.data l hm

/-! ## Helper lemmas about the envelope output phases -/

theorem wwpOutputPhase_trace (client : SkyflowMCP) (svc : ExtServices)
    (options : WrapWithProtectionOptions) (result : JSValue) (tr : List CallEvent) :
    (wwpOutputPhase client svc options result tr).2
      = tr ++ (match reidTargetWWP options result with
               | some s => [CallEvent.reid s]
               | none => []) := by
  unfold wwpOutputPhase reidTargetWWP
  by_cases hro : options.reidentifyOutput.getD true = false
  · simp [hro]
  · rw [if_neg hro, if_neg hro]
    cases result with
    | str s =>
      rcases hc : client.reidentify svc s with ⟨res, tr2⟩
      have ht : tr2 = [CallEvent.reid s] := by
        have h0 := reidentify_trace client svc s
        rw [hc] at h0
        exact h0
      cases res <;> simp [hc, ht]
    | obj fields =>
      rcases hf : strTruthy options.reidentifyField with _ | f
      · simp [hf]
      · rcases hlf : lookupField fields f with _ | v
        · simp [hf, hlf]
        · cases v with
          | str fv =>
            rcases hc : client.reidentify svc fv with ⟨res, tr2⟩
            have ht : tr2 = [CallEvent.reid fv] := by
              have h0 := reidentify_trace client svc fv
              rw [hc] at h0
              exact h0
            cases res <;> simp [hf, hlf, hc, ht]
          | obj f2 => simp [hf, hlf]
          | nullv => simp [hf, hlf]
          | boolv b => simp [hf, hlf]
          | num n => simp [hf, hlf]
    | nullv =>
      rcases hf : strTruthy options.reidentifyField with _ | f <;> simp [hf]
    | boolv b =>
      rcases hf : strTruthy options.reidentifyField with _ | f <;> simp [hf]
    | num n =>
      rcases hf : strTruthy options.reidentifyField with _ | f <;> simp [hf]

theorem wwpOutputPhase_skip (client : SkyflowMCP) (svc : ExtServices)
    (options : WrapWithProtectionOptions) (result : JSValue) (tr : List CallEvent)
    (h : reidTargetWWP options result = none) :
    wwpOutputPhase client svc options result tr = (Except.ok result, tr) := by
  unfold wwpOutputPhase
  unfold reidTargetWWP at h
  by_cases hro : options.reidentifyOutput.getD true = false
  · simp [hro]
  · rw [if_neg hro] at h ⊢
    cases result with
    | str s => simp at h
    | obj fields =>
      rcases hf : strTruthy options.reidentifyField with _ | f
      · simp [hf]
      · rcases hlf : lookupField fields f with _ | v
        · simp [hf, hlf]
        · cases v with
          | str fv => simp [hf, hlf] at h
          | obj f2 => simp [hf, hlf]
          | nullv => simp [hf, hlf]
          | boolv b => simp [hf, hlf]
          | num n => simp [hf, hlf]
    | nullv =>
      rcases hf : strTruthy options.reidentifyField with _ | f <;> simp [hf]
    | boolv b =>
      rcases hf : strTruthy options.reidentifyField with _ | f <;> simp [hf]
    | num n =>
      rcases hf : strTruthy options.reidentifyField with _ | f <;> simp [hf]

theorem wwpOutputPhase_str (client : SkyflowMCP) (svc : ExtServices)
    (options : WrapWithProtectionOptions) (s t : String) (tr : List CallEvent)
    (hro : options.reidentifyOutput ≠ some false)
    (hre : svc.reidentifyText s = Except.ok t) :
    wwpOutputPhase client svc options (JSValue.str s) tr
      = (Except.ok (JSValue.str t), tr ++ [CallEvent.reid s]) := by
  unfold wwpOutputPhase
  rw [if_neg (fun hc => hro ((getD_true_eq_false_iff _).1 hc))]
  simp [SkyflowMCP.reidentify, hre]

theorem wwpOutputPhase_field (client : SkyflowMCP) (svc : ExtServices)
    (options : WrapWithProtectionOptions) (fields : List (String × JSValue))
    (f fv t : String) (tr : List CallEvent)
    (hro : options.reidentifyOutput ≠ some false)
    (hf : strTruthy options.reidentifyField = some f)
    (hlf : lookupField fields f = some (JSValue.str fv))
    (hre : svc.reidentifyText fv = Except.ok t) :
    wwpOutputPhase client svc options (JSValue.obj fields) tr
      = (Except.ok (JSValue.obj (setField fields f (JSValue.str t))),
         tr ++ [CallEvent.reid fv]) := by
  unfold wwpOutputPhase
  rw [if_neg (fun hc => hro ((getD_true_eq_false_iff _).1 hc))]
  simp [hf, hlf, SkyflowMCP.reidentify, hre]

theorem wrapOutputPhase_trace (c : SkyflowMCP) (svc : ExtServices)
    (options : Option WrapOptions) (result : JSValue) (tr : List CallEvent) :
    (wrapOutputPhase c svc options result tr).2
      = tr ++ (match reidTargetWrap options result with
               | some s => [CallEvent.reid s]
               | none => []) := by
  unfold wrapOutputPhase reidTargetWrap
  rcases hb : options.bind WrapOptions.reidentifyOutput with _ | b
  · cases result with
    | str s =>
      rcases hc : c.reidentify svc s with ⟨res, tr2⟩
      have ht : tr2 = [CallEvent.reid s] := by
        have h0 := reidentify_trace c svc s
        rw [hc] at h0
        exact h0
      cases res <;> simp [hb, hc, ht]
    | obj fields => simp [hb]
    | nullv => simp [hb]
    | boolv b2 => simp [hb]
    | num n => simp [hb]
  · cases b with
    | false => simp [hb]
    | true =>
      cases result with
      | str s =>
        rcases hc : c.reidentify svc s with ⟨res, tr2⟩
        have ht : tr2 = [CallEvent.reid s] := by
          have h0 := reidentify_trace c svc s
          rw [hc] at h0
          exact h0
        cases res <;> simp [hb, hc, ht]
      | obj fields => simp [hb]
      | nullv => simp [hb]
      | boolv b2 => simp [hb]
      | num n => simp [hb]

theorem wrapOutputPhase_skip (c : SkyflowMCP) (svc : ExtServices)
    (options : Option WrapOptions) (result : JSValue) (tr : List CallEvent)
    (h : reidTargetWrap options result = none) :
    wrapOutputPhase c svc options result tr = (Except.ok result, tr) := by
  unfold wrapOutputPhase
  unfold reidTargetWrap at h
  rcases hb : options.bind WrapOptions.reidentifyOutput with _ | b
  · cases result with
    | str s =>
      rw [hb] at h
      simp at h
    | obj fields => simp [hb]
    | nullv => simp [hb]
    | boolv b2 => simp [hb]
    | num n => simp [hb]
  · cases b with
    | false => simp [hb]
    | true =>
      cases result with
      | str s =>
        rw [hb] at h
        simp at h
      | obj fields => simp [hb]
      | nullv => simp [hb]
      | boolv b2 => simp [hb]
      | num n => simp [hb]

theorem wrapOutputPhase_str (c : SkyflowMCP) (svc : ExtServices)
    (options : Option WrapOptions) (s t : String) (tr : List CallEvent)
    (hro : options.bind WrapOptions.reidentifyOutput ≠ some false)
    (hre : svc.reidentifyText s = Except.ok t) :
    wrapOutputPhase c svc options (JSValue.str s) tr
      = (Except.ok (JSValue.str t), tr ++ [CallEvent.reid s]) := by
  unfold wrapOutputPhase
  rcases hb : options.bind WrapOptions.reidentifyOutput with _ | b
  · simp [SkyflowMCP.reidentify, hre]
  · cases b with
    | false => exact absurd hb hro
    | true => simp [SkyflowMCP.reidentify, hre]

/-! ## Helper lemmas about field lookup and shallow update -/

theorem setField_cons (a : String) (u : JSValue) (rest : List (String × JSValue))
    (f : String) (v : JSValue) :
    setField ((a, u) :: rest) f v
      = (if a = f then (a, v) else (a, u)) :: setField rest f v := by
  by_cases ha : a = f <;> simp [setField, ha]

theorem lookupField_setField_self (fields : List (String × JSValue)) (f : String)
    (v w : JSValue) (h : lookupField fields f = some w) :
    lookupField (setField fields f v) f = some v := by
  induction fields with
  | nil => simp [lookupField] at h
  | cons p rest ih =>
    obtain ⟨a, u⟩ := p
    rw [setField_cons]
    by_cases ha : a = f
    · rw [if_pos ha]
      subst ha
      simp [lookupField]
    · rw [if_neg ha]
      simp only [lookupField, if_neg ha] at h ⊢
      exact ih h

theorem lookupField_setField_other (fields : List (String × JSValue)) (f : String)
    (v : JSValue) (k : String) (hk : k ≠ f) :
    lookupField (setField fields f v) k = lookupField fields k := by
  induction fields with
  | nil => rfl
  | cons p rest ih =>
    obtain ⟨a, u⟩ := p
    rw [setField_cons]
    by_cases ha : a = f
    · rw [if_pos ha]
      have hak : ¬ a = k := fun hx => hk (by rw [← hx]; exact ha)
      simp only [lookupField, if_neg hak]
      exact ih
    · rw [if_neg ha]
      by_cases hak : a = k
      · simp only [lookupField, if_pos hak]
      · simp only [lookupField, if_neg hak]
        exact ih

/-! ## Characterizations of the reidentify decision -/

theorem wwpFieldCond_resolve (options : WrapWithProtectionOptions)
    (fields : List (String × JSValue))
    (hEx : ∃ f fields' fv, options.reidentifyField = some f ∧ f ≠ ""
        ∧ JSValue.obj fields = JSValue.obj fields'
        ∧ lookupField fields' f = some (JSValue.str fv)) :
    ∃ f fv, strTruthy options.reidentifyField = some f
        ∧ lookupField fields f = some (JSValue.str fv) := by
  obtain ⟨f, fields', fv, hrf, hne, heq, hlk⟩ := hEx
  injection heq with hfe
  subst hfe
  exact ⟨f, fv, (strTruthy_eq_some_iff _ _).2 ⟨hrf, hne⟩, hlk⟩

theorem reidTargetWWP_some_iff (options : WrapWithProtectionOptions) (result : JSValue) :
    (∃ s, reidTargetWWP options result = some s)
      ↔ (options.reidentifyOutput ≠ some false
          ∧ (result.isStr = true
             ∨ ∃ f fields fv, options.reidentifyField = some f ∧ f ≠ ""
                 ∧ result = JSValue.obj fields
                 ∧ lookupField fields f = some (JSValue.str fv))) := by
  unfold reidTargetWWP
  by_cases hro : options.reidentifyOutput.getD true = false
  · rw [if_pos hro]
    exact iff_of_false (by simp) (fun hc => hc.1 ((getD_true_eq_false_iff _).1 hro))
  · rw [if_neg hro]
    have hro' : options.reidentifyOutput ≠ some false :=
      fun hx => hro ((getD_true_eq_false_iff _).2 hx)
    cases result with
    | str s => exact iff_of_true ⟨s, rfl⟩ ⟨hro', Or.inl rfl⟩
    | obj fields =>
      rcases hf : strTruthy options.reidentifyField with _ | f
      · refine iff_of_false (by simp [hf]) ?_
        rintro ⟨-, h2 | hEx⟩
        · simp [JSValue.isStr] at h2
        · obtain ⟨f', fv', hsf, _⟩ := wwpFieldCond_resolve options fields hEx
          rw [hf] at hsf
          exact Option.noConfusion hsf
      · rcases hlf : lookupField fields f with _ | v
        · refine iff_of_false (by simp [hf, hlf]) ?_
          rintro ⟨-, h2 | hEx⟩
          · simp [JSValue.isStr] at h2
          · obtain ⟨f', fv', hsf, hlk⟩ := wwpFieldCond_resolve options fields hEx
            rw [hf] at hsf
            injection hsf with hff
            rw [← hff, hlf] at hlk
            exact Option.noConfusion hlk
        · cases v with
          | str fv =>
            refine iff_of_true ⟨fv, by simp [hf, hlf]⟩ ?_
            refine ⟨hro', Or.inr ⟨f, fields, fv, ?_, ?_, rfl, hlf⟩⟩
            · exact ((strTruthy_eq_some_iff _ _).1 hf).1
            · exact ((strTruthy_eq_some_iff _ _).1 hf).2
          | obj f2 =>
            refine iff_of_false (by simp [hf, hlf]) ?_
            rintro ⟨-, h2 | hEx⟩
            · simp [JSValue.isStr] at h2
            · obtain ⟨f', fv', hsf, hlk⟩ := wwpFieldCond_resolve options fields hEx
              rw [hf] at hsf
              injection hsf with hff
              rw [← hff, hlf] at hlk
              injection hlk with hlk'
              exact JSValue.noConfusion hlk'
          | nullv =>
            refine iff_of_false (by simp [hf, hlf]) ?_
            rintro ⟨-, h2 | hEx⟩
            · simp [JSValue.isStr] at h2
            · obtain ⟨f', fv', hsf, hlk⟩ := wwpFieldCond_resolve options fields hEx
              rw [hf] at hsf
              injection hsf with hff
              rw [← hff, hlf] at hlk
              injection hlk with hlk'
              exact JSValue.noConfusion hlk'
          | boolv b =>
            refine iff_of_false (by simp [hf, hlf]) ?_
            rintro ⟨-, h2 | hEx⟩
            · simp [JSValue.isStr] at h2
            · obtain ⟨f', fv', hsf, hlk⟩ := wwpFieldCond_resolve options fields hEx
              rw [hf] at hsf
              injection hsf with hff
              rw [← hff, hlf] at hlk
              injection hlk with hlk'
              exact JSValue.noConfusion hlk'
          | num n =>
            refine iff_of_false (by simp [hf, hlf]) ?_
            rintro ⟨-, h2 | hEx⟩
            · simp [JSValue.isStr] at h2
            · obtain ⟨f', fv', hsf, hlk⟩ := wwpFieldCond_resolve options fields hEx
              rw [hf] at hsf
              injection hsf with hff
              rw [← hff, hlf] at hlk
              injection hlk with hlk'
              exact JSValue.noConfusion hlk'
    | nullv =>
      rcases hf : strTruthy options.reidentifyField with _ | f
      all_goals
        refine iff_of_false (by simp [hf]) ?_
        rintro ⟨-, h2 | ⟨f', fields', fv', _, _, heq, _⟩⟩
        · simp [JSValue.isStr] at h2
        · exact JSValue.noConfusion heq
    | boolv b =>
      rcases hf : strTruthy options.reidentifyField with _ | f
      all_goals
        refine iff_of_false (by simp [hf]) ?_
        rintro ⟨-, h2 | ⟨f', fields', fv', _, _, heq, _⟩⟩
        · simp [JSValue.isStr] at h2
        · exact JSValue.noConfusion heq
    | num n =>
      rcases hf : strTruthy options.reidentifyField with _ | f
      all_goals
        refine iff_of_false (by simp [hf]) ?_
        rintro ⟨-, h2 | ⟨f', fields', fv', _, _, heq, _⟩⟩
        · simp [JSValue.isStr] at h2
        · exact JSValue.noConfusion heq

theorem reidTargetWrap_some_iff (options : Option WrapOptions) (result : JSValue) :
    (∃ s, reidTargetWrap options result = some s)
      ↔ (options.bind WrapOptions.reidentifyOutput ≠ some false ∧ result.isStr = true) := by
  unfold reidTargetWrap
  rcases hb : options.bind WrapOptions.reidentifyOutput with _ | b
  · cases result with
    | str s => exact iff_of_true ⟨s, rfl⟩ ⟨by simp, rfl⟩
    | obj fields =>
      exact iff_of_false (by simp) (fun hc => by simp [JSValue.isStr] at hc)
    | nullv => exact iff_of_false (by simp) (fun hc => by simp [JSValue.isStr] at hc)
    | boolv b2 => exact iff_of_false (by simp) (fun hc => by simp [JSValue.isStr] at hc)
    | num n => exact iff_of_false (by simp) (fun hc => by simp [JSValue.isStr] at hc)
  · cases b with
    | false => exact iff_of_false (by simp) (fun hc => hc.1 rfl)
    | true =>
      cases result with
      | str s => exact iff_of_true ⟨s, rfl⟩ ⟨by simp, rfl⟩
      | obj fields =>
        exact iff_of_false (by simp) (fun hc => by simp [JSValue.isStr] at hc)
      | nullv => exact iff_of_false (by simp) (fun hc => by simp [JSValue.isStr] at hc)
      | boolv b2 => exact iff_of_false (by simp) (fun hc => by simp [JSValue.isStr] at hc)
      | num n => exact iff_of_false (by simp) (fun hc => by simp [JSValue.isStr] at hc)

/-! ## Claim theorems -/

/-- C5: `extractClusterId` is total and pure: for all strings it returns
either a non-empty label or the not-found sentinel (`none`) — in the
embedding totality and determinism (the claim's "never throws" and
"idempotent": the underlying regex holds no state, so repeated calls agree)
are intrinsic, and non-emptiness of every returned label is proved — with
the five concrete evaluations of the claim. -/
theorem extractClusterId_total_and_concrete :
    (∀ s : String, extractClusterId s = none
        ∨ ∃ c, extractClusterId s = some c ∧ 0 < c.length)
    ∧ extractClusterId "https://abc123.vault.skyflowapis.com" = some "abc123"
    ∧ extractClusterId "abc123.vault.skyflowapis.com" = some "abc123"
    ∧ extractClusterId "http://abc123.vault.skyflowapis.com" = some "abc123"
    ∧ extractClusterId "https://invalid.com" = none
    ∧ extractClusterId "" = none := by
  refine ⟨?_, rfl, rfl, rfl, rfl, rfl⟩
  intro s
  cases h : extractClusterId s with
  | none => exact Or.inl rfl
  | some c => exact Or.inr ⟨c, rfl, extractClusterId_pos s c h⟩

/-- C6: `validateVaultConfig` is fully characterized: missing/empty `vaultId`
gives `isValid = false` with the `vaultId is required` error; otherwise
missing/empty `vaultUrl` gives the `vaultUrl is required` error; otherwise a
`vaultUrl` with no extractable cluster id gives the `Invalid vaultUrl format`
error (which states the expected shape); otherwise the result is valid with
`config` echoing `vaultId`, `vaultUrl`, `accountId`, `workspaceId` verbatim
(the optional two as explicit, possibly-absent fields) and `clusterId =
extractClusterId vaultUrl`. -/
theorem validateVaultConfig_characterization :
    ∀ p : VaultParams,
      (strTruthy p.vaultId = none →
        validateVaultConfig p = ⟨false, some "vaultId is required", none⟩)
      ∧ (∀ vid, strTruthy p.vaultId = some vid → strTruthy p.vaultUrl = none →
        validateVaultConfig p = ⟨false, some "vaultUrl is required", none⟩)
      ∧ (∀ vid vurl, strTruthy p.vaultId = some vid → strTruthy p.vaultUrl = some vurl →
        extractClusterId vurl = none →
        validateVaultConfig p = ⟨false, some invalidVaultUrlMsg, none⟩
        ∧ strContains invalidVaultUrlMsg "Invalid vaultUrl format" = true)
      ∧ (∀ vid vurl cid, strTruthy p.vaultId = some vid → strTruthy p.vaultUrl = some vurl →
        extractClusterId vurl = some cid →
        validateVaultConfig p
          = ⟨true, none, some ⟨vid, vurl, cid, p.accountId, p.workspaceId⟩⟩) := by
  intro p
  refine ⟨?_, ?_, ?_, ?_⟩
  · intro h
    unfold validateVaultConfig
    rw [h]
  · intro vid h1 h2
    unfold validateVaultConfig
    rw [h1, h2]
  · intro vid vurl h1 h2 h3
    constructor
    · unfold validateVaultConfig
      simp only [h1, h2, h3]
    · decide
  · intro vid vurl cid h1 h2 h3
    unfold validateVaultConfig
    simp only [h1, h2, h3]
    have hcid : ¬ cid = "" := by
      intro hc
      have := extractClusterId_pos vurl cid h3
      rw [hc] at this
      simp at this
    rw [if_neg hcid]

/-- Witness for C6: the characterization applied at four concrete parameter
records, one per branch. -/
theorem validateVaultConfig_characterization_witness :
    validateVaultConfig ⟨none, some "https://abc123.vault.skyflowapis.com", none, none⟩
        = ⟨false, some "vaultId is required", none⟩
    ∧ validateVaultConfig ⟨some "vault-123", some "", none, none⟩
        = ⟨false, some "vaultUrl is required", none⟩
    ∧ (validateVaultConfig ⟨some "vault-123", some "https://invalid.com", none, none⟩
        = ⟨false, some invalidVaultUrlMsg, none⟩
       ∧ strContains invalidVaultUrlMsg "Invalid vaultUrl format" = true)
    ∧ validateVaultConfig
        ⟨some "vault-123", some "https://abc123.vault.skyflowapis.com", some "acct", none⟩
        = ⟨true, none,
           some ⟨"vault-123", "https://abc123.vault.skyflowapis.com", "abc123",
                 some "acct", none⟩⟩ :=
  ⟨(validateVaultConfig_characterization _).1 rfl,
   (validateVaultConfig_characterization _).2.1 "vault-123" rfl rfl,
   (validateVaultConfig_characterization _).2.2.1 "vault-123" "https://invalid.com"
     rfl rfl rfl,
   (validateVaultConfig_characterization _).2.2.2 "vault-123"
     "https://abc123.vault.skyflowapis.com" "abc123" rfl rfl rfl⟩

/-- C7: `isValidEntity` is a case-sensitive membership test of the closed
vocabulary, and resolving an out-of-vocabulary name (`getEntityEnum`) fails
with an error whose message contains the offending name; in
`SkyflowMCP.deidentify` that failure is raised before any external call (the
trace is empty) for every client, service and input. -/
theorem entity_vocabulary_guard :
    isValidEntity "email_address" = true
    ∧ isValidEntity "EMAIL_ADDRESS" = false
    ∧ getEntityEnum "bogus" = Except.error "Invalid entity type: bogus"
    ∧ strContains "Invalid entity type: bogus" "bogus" = true
    ∧ ∀ (c : SkyflowMCP) (svc : ExtServices) (input : String) (tt : Option TokenType),
        c.deidentify svc input (some ⟨tt, some ["bogus"]⟩)
          = (Except.error (SkyflowMCPError.deidentifyErr "Invalid entity type: bogus"
                none none (some (ExtError.generic "Invalid entity type: bogus"))), []) := by
  refine ⟨rfl, rfl, rfl, by decide, ?_⟩
  intro c svc input tt
  rfl

/-- C9 counterexample: the claim's universal description — "the run of
non-dot characters immediately preceding the first occurrence of `.vault`,
after optionally skipping a *leading* scheme" (`specRunBeforeFirstVault`) —
disagrees with the source `extractClusterId` on `"a.https://b.vault"`: the
regex retries the scheme alternative at every scan position, so it skips the
non-leading `https://` and captures `"b"`, while the claim's reading yields
`"https://b"`. -/
theorem extractClusterId_firstVault_counterexample :
    extractClusterId "a.https://b.vault" = some "b"
    ∧ specRunBeforeFirstVault "a.https://b.vault" = some "https://b"
    ∧ extractClusterId "a.https://b.vault" ≠ specRunBeforeFirstVault "a.https://b.vault" := by
  refine ⟨rfl, rfl, ?_⟩
  decide

/-- C9 (amended): `extractClusterId` captures group 1 of the leftmost match
of `(?:https?:\/\/)?([^.]+)\.vault` — it does not require `vault` to be a
complete host label nor the cluster label to be the first label, and it
skips an `http://`/`https://` occurring at the match position (not only a
leading one); `validateVaultConfig` accordingly accepts such URLs. -/
theorem extractClusterId_pattern_amended :
    extractClusterId "foo.vaultbar.com" = some "foo"
    ∧ extractClusterId "https://a.b.vault.com" = some "b"
    ∧ extractClusterId "a.https://b.vault" = some "b"
    ∧ validateVaultConfig ⟨some "v", some "foo.vaultbar.com", none, none⟩
        = ⟨true, none, some ⟨"v", "foo.vaultbar.com", "foo", none, none⟩⟩
    ∧ validateVaultConfig ⟨some "v", some "https://a.b.vault.com", none, none⟩
        = ⟨true, none, some ⟨"v", "https://a.b.vault.com", "b", none, none⟩⟩ :=
  ⟨rfl, rfl, rfl, rfl, rfl⟩

/-- C10: a per-call `entities: []` is truthy, so it overrides any
client-level `defaultEntities`; since it is empty no entity validation runs
and no entity restriction is sent — observably identical to a call with no
entity option on a client with no entity defaults. -/
theorem deidentify_empty_entities_override :
    ∀ (c : SkyflowMCP) (svc : ExtServices) (text : String) (tt : Option TokenType),
      c.deidentify svc text (some ⟨tt, some []⟩)
        = SkyflowMCP.deidentify
            ⟨c.vaultId,
             { c.config with
                options := c.config.options.map (fun o => ⟨o.defaultTokenType, none⟩) }⟩
            svc text (some ⟨tt, none⟩) := by
  intro c svc text tt
  simp only [SkyflowMCP.deidentify]
  cases hco : c.config.options with
  | none => rfl
  | some o => rfl

/-- C1: with default options, whenever the deidentify step succeeds both
`wrapWithProtection` and `SkyflowMCP.wrap` invoke the operation exactly once,
with exactly the `processedText` that step produced; and when the operation
returns a string, they call the external reidentify capability on that
string and return its reidentified `processedText` in its place. -/
theorem wrap_default_path (client : SkyflowMCP) (svc : ExtServices) (input : String)
    (operation : String → JSValue) (dr : DeidentifyResult) (tr0 : List CallEvent)
    (H : client.deidentify svc input (some ⟨none, none⟩) = (Except.ok dr, tr0)) :
    opCalls (wrapWithProtection client svc input operation ⟨none, none, none, none⟩).2
        = [dr.processedText]
    ∧ opCalls (SkyflowMCP.wrap client svc input operation none).2 = [dr.processedText]
    ∧ ∀ s t, operation dr.processedText = JSValue.str s →
        svc.reidentifyText s = Except.ok t →
        (wrapWithProtection client svc input operation ⟨none, none, none, none⟩).1
            = Except.ok (JSValue.str t)
        ∧ reidCalls (wrapWithProtection client svc input operation
            ⟨none, none, none, none⟩).2 = [s]
        ∧ (SkyflowMCP.wrap client svc input operation none).1 = Except.ok (JSValue.str t)
        ∧ reidCalls (SkyflowMCP.wrap client svc input operation none).2 = [s] := by
  have Hw : client.deidentify svc input
      ((none : Option WrapOptions).map WrapOptions.toDeidentifyOptions)
      = (Except.ok dr, tr0) := H
  have hop0 : opCalls tr0 = [] := by
    have hx := opCalls_deidentify client svc input (some ⟨none, none⟩)
    rw [H] at hx
    exact hx
  have hreid0 : reidCalls tr0 = [] := by
    have hx := reidCalls_deidentify client svc input (some ⟨none, none⟩)
    rw [H] at hx
    exact hx
  refine ⟨?_, ?_, ?_⟩
  · simp only [wrapWithProtection, H]
    rw [wwpOutputPhase_trace]
    rcases htg : reidTargetWWP ⟨none, none, none, none⟩ (operation dr.processedText)
        with _ | s <;> simp [hop0]
  · simp only [SkyflowMCP.wrap, Hw]
    rw [wrapOutputPhase_trace]
    rcases htg : reidTargetWrap none (operation dr.processedText) with _ | s <;> simp [hop0]
  · intro s t hos hre
    have h1 : wwpOutputPhase client svc ⟨none, none, none, none⟩
        (operation dr.processedText) (tr0 ++ [CallEvent.op dr.processedText])
        = (Except.ok (JSValue.str t),
           (tr0 ++ [CallEvent.op dr.processedText]) ++ [CallEvent.reid s]) := by
      rw [hos]
      exact wwpOutputPhase_str client svc _ s t _ (by simp) hre
    have h2 : wrapOutputPhase client svc none (operation dr.processedText)
        (tr0 ++ [CallEvent.op dr.processedText])
        = (Except.ok (JSValue.str t),
           (tr0 ++ [CallEvent.op dr.processedText]) ++ [CallEvent.reid s]) := by
      rw [hos]
      exact wrapOutputPhase_str client svc none s t _ (by simp) hre
    refine ⟨?_, ?_, ?_, ?_⟩
    · simp only [wrapWithProtection, H]
      rw [h1]
    · simp only [wrapWithProtection, H]
      rw [h1]
      simp [hreid0]
    · simp only [SkyflowMCP.wrap, Hw]
      rw [h2]
    · simp only [SkyflowMCP.wrap, Hw]
      rw [h2]
      simp [hreid0]

/-- Witness for C1: the spec's stub collaborators — deidentify yields the
token, reidentify restores the email, the operation echoes — give exactly
one operation call with the token text and the restored email as result, for
both envelope entry points. -/
theorem wrap_default_path_witness :
    opCalls (wrapWithProtection stubClient stubServices "john@example.com" echoOp
        ⟨none, none, none, none⟩).2 = ["[EMAIL_ADDRESS_abc123]"]
    ∧ (wrapWithProtection stubClient stubServices "john@example.com" echoOp
        ⟨none, none, none, none⟩).1 = Except.ok (JSValue.str "john@example.com")
    ∧ (SkyflowMCP.wrap stubClient stubServices "john@example.com" echoOp none).1
        = Except.ok (JSValue.str "john@example.com") := by
  have h := wrap_default_path stubClient stubServices "john@example.com" echoOp
      ⟨"[EMAIL_ADDRESS_abc123]", none, none, none⟩
      [CallEvent.deid ⟨"john@example.com", TokenType.VAULT_TOKEN, none⟩] rfl
  obtain ⟨h1, h2, h3⟩ := h
  obtain ⟨h4, h5, h6, h7⟩ := h3 "[EMAIL_ADDRESS_abc123]" "john@example.com" rfl rfl
  exact ⟨h1, h4, h6⟩

/-- C2: when the deidentify step fails, both envelope entry points reject
with exactly that failure — a `DeidentifyError` (code `DEIDENTIFY_ERROR`)
with a chained cause — and the operation is never invoked; at the external
boundary a structured `SkyflowError` failure's HTTP-like code and details
are carried onto the `DeidentifyError`, and any other failure yields one
with both absent. -/
theorem wrap_deidentify_failure :
    (∀ (client : SkyflowMCP) (svc : ExtServices) (input : String)
       (operation : String → JSValue) (wopts : WrapWithProtectionOptions)
       (e : SkyflowMCPError) (tr : List CallEvent),
       client.deidentify svc input (some ⟨wopts.tokenType, wopts.entities⟩)
           = (Except.error e, tr) →
       wrapWithProtection client svc input operation wopts = (Except.error e, tr)
       ∧ opCalls tr = []
       ∧ e.code = "DEIDENTIFY_ERROR"
       ∧ ∃ m hc d cause, e = SkyflowMCPError.deidentifyErr m hc d (some cause))
    ∧ (∀ (client : SkyflowMCP) (svc : ExtServices) (input : String)
       (operation : String → JSValue) (wo : Option WrapOptions)
       (e : SkyflowMCPError) (tr : List CallEvent),
       client.deidentify svc input (wo.map WrapOptions.toDeidentifyOptions)
           = (Except.error e, tr) →
       SkyflowMCP.wrap client svc input operation wo = (Except.error e, tr)
       ∧ opCalls tr = []
       ∧ e.code = "DEIDENTIFY_ERROR"
       ∧ ∃ m hc d cause, e = SkyflowMCPError.deidentifyErr m hc d (some cause))
    ∧ (∀ (svc : ExtServices) (req : DeidRequest) (m : String) (hc : Option Int)
       (d : Option String),
       svc.deidentifyText req = Except.error (ExtError.skyflow m hc d) →
       deidentifyCallExt svc req
         = (Except.error (SkyflowMCPError.deidentifyErr m hc d
              (some (ExtError.skyflow m hc d))), [CallEvent.deid req]))
    ∧ (∀ (svc : ExtServices) (req : DeidRequest) (m : String),
       svc.deidentifyText req = Except.error (ExtError.generic m) →
       deidentifyCallExt svc req
         = (Except.error (SkyflowMCPError.deidentifyErr m none none
              (some (ExtError.generic m))), [CallEvent.deid req])) := by
  refine ⟨?_, ?_, ?_, ?_⟩
  · intro client svc input operation wopts e tr H
    have he : (client.deidentify svc input (some ⟨wopts.tokenType, wopts.entities⟩)).1
        = Except.error e := by rw [H]
    refine ⟨?_, ?_, ?_, ?_⟩
    · simp only [wrapWithProtection, H]
    · have hx := opCalls_deidentify client svc input (some ⟨wopts.tokenType, wopts.entities⟩)
      rw [H] at hx
      exact hx
    · exact deidentify_error_code _ _ _ _ _ he
    · exact deidentify_error_shape _ _ _ _ _ he
  · intro client svc input operation wo e tr H
    have he : (client.deidentify svc input (wo.map WrapOptions.toDeidentifyOptions)).1
        = Except.error e := by rw [H]
    refine ⟨?_, ?_, ?_, ?_⟩
    · simp only [SkyflowMCP.wrap, H]
    · have hx := opCalls_deidentify client svc input (wo.map WrapOptions.toDeidentifyOptions)
      rw [H] at hx
      exact hx
    · exact deidentify_error_code _ _ _ _ _ he
    · exact deidentify_error_shape _ _ _ _ _ he
  · intro svc req m hc d hx
    unfold deidentifyCallExt
    rw [hx]
    rfl
  · intro svc req m hx
    unfold deidentifyCallExt
    rw [hx]
    rfl

/-- Witness for C2: against the always-failing stub service the envelope
rejects with the wrapped `DeidentifyError` carrying code 503, details and
the original `SkyflowError` as cause, and the trace holds no operation
call. -/
theorem wrap_deidentify_failure_witness :
    wrapWithProtection stubClient stubFailServices "x" echoOp ⟨none, none, none, none⟩
      = (Except.error stubFailErr, [CallEvent.deid ⟨"x", TokenType.VAULT_TOKEN, none⟩])
    ∧ opCalls [CallEvent.deid ⟨"x", TokenType.VAULT_TOKEN, none⟩] = []
    ∧ stubFailErr.code = "DEIDENTIFY_ERROR"
    ∧ deidentifyCallExt stubFailServices ⟨"x", TokenType.VAULT_TOKEN, none⟩
      = (Except.error stubFailErr, [CallEvent.deid ⟨"x", TokenType.VAULT_TOKEN, none⟩]) := by
  have q := wrap_deidentify_failure.1 stubClient stubFailServices "x" echoOp
      ⟨none, none, none, none⟩ stubFailErr
      [CallEvent.deid ⟨"x", TokenType.VAULT_TOKEN, none⟩] rfl
  have r := wrap_deidentify_failure.2.2.1 stubFailServices ⟨"x", TokenType.VAULT_TOKEN, none⟩
      "Service unavailable" (some 503) (some "quota") rfl
  exact ⟨q.1, q.2.1, q.2.2.1, r⟩

/-- C3 counterexample: with `reidentifyField: ""` and an operation result
whose `""`-named field holds a string, the claim's condition for invoking
reidentify holds (`reidentifyOutput` is not `false`, the structured result's
`reidentifyField`-named field holds a string), yet the code treats the
falsy empty-string option as absent: reidentify is never called and the
result passes through unchanged. -/
theorem reidentify_invocation_counterexample :
    ((⟨none, none, none, some ""⟩ : WrapWithProtectionOptions).reidentifyOutput ≠ some false
     ∧ (⟨none, none, none, some ""⟩ : WrapWithProtectionOptions).reidentifyField = some ""
     ∧ lookupField [("", JSValue.str "[EMAIL_ADDRESS_abc123]")] ""
         = some (JSValue.str "[EMAIL_ADDRESS_abc123]"))
    ∧ reidCalls (wrapWithProtection stubClient stubServices "john@example.com"
        (fun _ => JSValue.obj [("", JSValue.str "[EMAIL_ADDRESS_abc123]")])
        ⟨none, none, none, some ""⟩).2 = []
    ∧ wrapWithProtection stubClient stubServices "john@example.com"
        (fun _ => JSValue.obj [("", JSValue.str "[EMAIL_ADDRESS_abc123]")])
        ⟨none, none, none, some ""⟩
      = (Except.ok (JSValue.obj [("", JSValue.str "[EMAIL_ADDRESS_abc123]")]),
         [CallEvent.deid ⟨"john@example.com", TokenType.VAULT_TOKEN, none⟩,
          CallEvent.op "[EMAIL_ADDRESS_abc123]"]) := by
  refine ⟨⟨by simp, rfl, rfl⟩, rfl, rfl⟩

/-- C3 (amended): after a successful deidentify step, the external
reidentify capability is invoked by `wrapWithProtection` exactly when
`reidentifyOutput` is not `false` and the result is a string or a structured
value whose field named by a *non-empty* (truthy) `reidentifyField` holds a
string — and by `SkyflowMCP.wrap` exactly when `reidentifyOutput` is not
`false` and the result is a string; in every other case the operation's
result is returned unchanged with no reidentify call and no error. -/
theorem reidentify_invocation_characterization :
    (∀ (client : SkyflowMCP) (svc : ExtServices) (input : String)
       (operation : String → JSValue) (wopts : WrapWithProtectionOptions)
       (dr : DeidentifyResult) (tr0 : List CallEvent),
       client.deidentify svc input (some ⟨wopts.tokenType, wopts.entities⟩)
           = (Except.ok dr, tr0) →
       (reidCalls (wrapWithProtection client svc input operation wopts).2 ≠ []
          ↔ (wopts.reidentifyOutput ≠ some false
              ∧ ((operation dr.processedText).isStr = true
                 ∨ ∃ f fields fv, wopts.reidentifyField = some f ∧ f ≠ ""
                     ∧ operation dr.processedText = JSValue.obj fields
                     ∧ lookupField fields f = some (JSValue.str fv))))
       ∧ (¬ (wopts.reidentifyOutput ≠ some false
              ∧ ((operation dr.processedText).isStr = true
                 ∨ ∃ f fields fv, wopts.reidentifyField = some f ∧ f ≠ ""
                     ∧ operation dr.processedText = JSValue.obj fields
                     ∧ lookupField fields f = some (JSValue.str fv))) →
          wrapWithProtection client svc input operation wopts
            = (Except.ok (operation dr.processedText),
               tr0 ++ [CallEvent.op dr.processedText])))
    ∧ (∀ (client : SkyflowMCP) (svc : ExtServices) (input : String)
       (operation : String → JSValue) (wo : Option WrapOptions)
       (dr : DeidentifyResult) (tr0 : List CallEvent),
       client.deidentify svc input (wo.map WrapOptions.toDeidentifyOptions)
           = (Except.ok dr, tr0) →
       (reidCalls (SkyflowMCP.wrap client svc input operation wo).2 ≠ []
          ↔ (wo.bind WrapOptions.reidentifyOutput ≠ some false
              ∧ (operation dr.processedText).isStr = true))
       ∧ (¬ (wo.bind WrapOptions.reidentifyOutput ≠ some false
              ∧ (operation dr.processedText).isStr = true) →
          SkyflowMCP.wrap client svc input operation wo
            = (Except.ok (operation dr.processedText),
               tr0 ++ [CallEvent.op dr.processedText]))) := by
  constructor
  · intro client svc input operation wopts dr tr0 H
    have hreid0 : reidCalls tr0 = [] := by
      have hx := reidCalls_deidentify client svc input (some ⟨wopts.tokenType, wopts.entities⟩)
      rw [H] at hx
      exact hx
    have htr : wrapWithProtection client svc input operation wopts
        = wwpOutputPhase client svc wopts (operation dr.processedText)
            (tr0 ++ [CallEvent.op dr.processedText]) := by
      simp only [wrapWithProtection, H]
    constructor
    · rw [htr, wwpOutputPhase_trace]
      rcases htg : reidTargetWWP wopts (operation dr.processedText) with _ | s
      · refine iff_of_false (by simp [hreid0]) ?_
        intro hc
        obtain ⟨s, hs⟩ := (reidTargetWWP_some_iff wopts _).2 hc
        rw [htg] at hs
        exact Option.noConfusion hs
      · refine iff_of_true (by simp [hreid0]) ?_
        exact (reidTargetWWP_some_iff wopts _).1 ⟨s, htg⟩
    · intro hnc
      have htg : reidTargetWWP wopts (operation dr.processedText) = none := by
        rcases htg0 : reidTargetWWP wopts (operation dr.processedText) with _ | s
        · rfl
        · exact absurd ((reidTargetWWP_some_iff wopts _).1 ⟨s, htg0⟩) hnc
      rw [htr]
      exact wwpOutputPhase_skip client svc wopts _ _ htg
  · intro client svc input operation wo dr tr0 H
    have hreid0 : reidCalls tr0 = [] := by
      have hx := reidCalls_deidentify client svc input (wo.map WrapOptions.toDeidentifyOptions)
      rw [H] at hx
      exact hx
    have htr : SkyflowMCP.wrap client svc input operation wo
        = wrapOutputPhase client svc wo (operation dr.processedText)
            (tr0 ++ [CallEvent.op dr.processedText]) := by
      simp only [SkyflowMCP.wrap, H]
    constructor
    · rw [htr, wrapOutputPhase_trace]
      rcases htg : reidTargetWrap wo (operation dr.processedText) with _ | s
      · refine iff_of_false (by simp [hreid0]) ?_
        intro hc
        obtain ⟨s, hs⟩ := (reidTargetWrap_some_iff wo _).2 hc
        rw [htg] at hs
        exact Option.noConfusion hs
      · refine iff_of_true (by simp [hreid0]) ?_
        exact (reidTargetWrap_some_iff wo _).1 ⟨s, htg⟩
    · intro hnc
      have htg : reidTargetWrap wo (operation dr.processedText) = none := by
        rcases htg0 : reidTargetWrap wo (operation dr.processedText) with _ | s
        · rfl
        · exact absurd ((reidTargetWrap_some_iff wo _).1 ⟨s, htg0⟩) hnc
      rw [htr]
      exact wrapOutputPhase_skip client svc wo _ _ htg

/-- Witness for C3: with `reidentifyOutput: false` neither entry point calls
reidentify and the operation's structured/string result is returned
unchanged without error. -/
theorem reidentify_invocation_characterization_witness :
    reidCalls (wrapWithProtection stubClient stubServices "john@example.com" objOp
        ⟨none, none, some false, none⟩).2 = []
    ∧ wrapWithProtection stubClient stubServices "john@example.com" objOp
        ⟨none, none, some false, none⟩
      = (Except.ok (JSValue.obj
            [("output", JSValue.str "[EMAIL_ADDRESS_abc123]"), ("other", JSValue.str "x")]),
         [CallEvent.deid ⟨"john@example.com", TokenType.VAULT_TOKEN, none⟩,
          CallEvent.op "[EMAIL_ADDRESS_abc123]"])
    ∧ reidCalls (SkyflowMCP.wrap stubClient stubServices "john@example.com" echoOp
        (some ⟨none, none, some false⟩)).2 = [] := by
  have h1 := reidentify_invocation_characterization.1 stubClient stubServices
      "john@example.com" objOp ⟨none, none, some false, none⟩
      ⟨"[EMAIL_ADDRESS_abc123]", none, none, none⟩
      [CallEvent.deid ⟨"john@example.com", TokenType.VAULT_TOKEN, none⟩] rfl
  have h2 := reidentify_invocation_characterization.2 stubClient stubServices
      "john@example.com" echoOp (some ⟨none, none, some false⟩)
      ⟨"[EMAIL_ADDRESS_abc123]", none, none, none⟩
      [CallEvent.deid ⟨"john@example.com", TokenType.VAULT_TOKEN, none⟩] rfl
  refine ⟨?_, ?_, ?_⟩
  · exact not_ne_iff.1 (fun hne => (h1.1.1 hne).1 rfl)
  · exact h1.2 (fun hc => hc.1 rfl)
  · exact not_ne_iff.1 (fun hne => (h2.1.1 hne).1 rfl)

/-- C4 counterexample: with `reidentifyField: ""` and a non-null structured
result whose `""`-named field holds a string, the claim requires that field
to be replaced by its reidentified text, but the code (treating the falsy
empty name as no field selection) returns the structure unchanged: the
field still holds the token, which differs from the reidentified text the
stub would have produced. -/
theorem wrap_field_targeted_counterexample :
    lookupField [("", JSValue.str "[EMAIL_ADDRESS_abc123]"), ("other", JSValue.str "x")] ""
        = some (JSValue.str "[EMAIL_ADDRESS_abc123]")
    ∧ wrapWithProtection stubClient stubServices "john@example.com"
        (fun _ => JSValue.obj
          [("", JSValue.str "[EMAIL_ADDRESS_abc123]"), ("other", JSValue.str "x")])
        ⟨none, none, none, some ""⟩
      = (Except.ok (JSValue.obj
            [("", JSValue.str "[EMAIL_ADDRESS_abc123]"), ("other", JSValue.str "x")]),
         [CallEvent.deid ⟨"john@example.com", TokenType.VAULT_TOKEN, none⟩,
          CallEvent.op "[EMAIL_ADDRESS_abc123]"])
    ∧ stubServices.reidentifyText "[EMAIL_ADDRESS_abc123]" = Except.ok "john@example.com"
    ∧ ("[EMAIL_ADDRESS_abc123]" : String) ≠ "john@example.com" := by
  refine ⟨rfl, rfl, rfl, by decide⟩

/-- C4 (amended): when the operation's result is a non-null structured value
and `reidentifyField` holds a *non-empty* name whose field currently holds a
string, `wrapWithProtection` returns a new top-level value in which exactly
that field is replaced by its reidentified text: the named field now holds
the reidentified string and every other top-level field is unchanged
(shallow copy). -/
theorem wrap_field_targeted_reidentify
    (client : SkyflowMCP) (svc : ExtServices) (input : String)
    (operation : String → JSValue) (wopts : WrapWithProtectionOptions)
    (dr : DeidentifyResult) (tr0 : List CallEvent)
    (fields : List (String × JSValue)) (f fv t : String)
    (H : client.deidentify svc input (some ⟨wopts.tokenType, wopts.entities⟩)
        = (Except.ok dr, tr0))
    (hro : wopts.reidentifyOutput ≠ some false)
    (hrf : wopts.reidentifyField = some f) (hne : f ≠ "")
    (hop : operation dr.processedText = JSValue.obj fields)
    (hlf : lookupField fields f = some (JSValue.str fv))
    (hre : svc.reidentifyText fv = Except.ok t) :
    (wrapWithProtection client svc input operation wopts).1
        = Except.ok (JSValue.obj (setField fields f (JSValue.str t)))
    ∧ lookupField (setField fields f (JSValue.str t)) f = some (JSValue.str t)
    ∧ (∀ k, k ≠ f →
        lookupField (setField fields f (JSValue.str t)) k = lookupField fields k) := by
  have hf : strTruthy wopts.reidentifyField = some f :=
    (strTruthy_eq_some_iff _ _).2 ⟨hrf, hne⟩
  refine ⟨?_, ?_, ?_⟩
  · simp only [wrapWithProtection, H]
    rw [hop]
    rw [wwpOutputPhase_field client svc wopts fields f fv t _ hro hf hlf hre]
  · exact lookupField_setField_self fields f (JSValue.str t) (JSValue.str fv) hlf
  · intro k hk
    exact lookupField_setField_other fields f (JSValue.str t) k hk

/-- Witness for C4: the claim's concrete example — `{output: <token>,
other: "x"}` with `reidentifyField: "output"` becomes `{output: <restored
text>, other: "x"}` with `other` untouched. -/
theorem wrap_field_targeted_reidentify_witness :
    (wrapWithProtection stubClient stubServices "john@example.com" objOp
        ⟨none, none, none, some "output"⟩).1
      = Except.ok (JSValue.obj
          [("output", JSValue.str "john@example.com"), ("other", JSValue.str "x")])
    ∧ lookupField
        [("output", JSValue.str "john@example.com"), ("other", JSValue.str "x")] "output"
      = some (JSValue.str "john@example.com")
    ∧ lookupField
        [("output", JSValue.str "john@example.com"), ("other", JSValue.str "x")] "other"
      = lookupField
        [("output", JSValue.str "[EMAIL_ADDRESS_abc123]"), ("other", JSValue.str "x")]
        "other" := by
  have h := wrap_field_targeted_reidentify stubClient stubServices "john@example.com" objOp
      ⟨none, none, none, some "output"⟩ ⟨"[EMAIL_ADDRESS_abc123]", none, none, none⟩
      [CallEvent.deid ⟨"john@example.com", TokenType.VAULT_TOKEN, none⟩]
      [("output", JSValue.str "[EMAIL_ADDRESS_abc123]"), ("other", JSValue.str "x")]
      "output" "[EMAIL_ADDRESS_abc123]" "john@example.com"
      rfl (by simp) rfl (by decide) rfl rfl rfl
  exact ⟨h.1, h.2.1, h.2.2 "other" (by decide)⟩

/-- C8: `createFromEnv` fails with a distinct `ConfigurationError` for a
missing vault id, a missing vault url, and missing credentials of both
forms; and whenever a bearer token is set (in particular when the API key is
also set), a successfully constructed client carries the bearer-token
credentials, the API key unused. -/
theorem createFromEnv_guards :
    (∀ env : Env, strTruthy env.SKYFLOW_VAULT_ID = none →
        createFromEnv env none
          = Except.error (SkyflowMCPError.configuration
              "SKYFLOW_VAULT_ID environment variable is required" none))
    ∧ (∀ (env : Env) (vid : String), strTruthy env.SKYFLOW_VAULT_ID = some vid →
        strTruthy env.SKYFLOW_VAULT_URL = none →
        createFromEnv env none
          = Except.error (SkyflowMCPError.configuration
              "SKYFLOW_VAULT_URL environment variable is required" none))
    ∧ (∀ (env : Env) (vid vurl : String), strTruthy env.SKYFLOW_VAULT_ID = some vid →
        strTruthy env.SKYFLOW_VAULT_URL = some vurl →
        strTruthy env.SKYFLOW_BEARER_TOKEN = none →
        strTruthy env.SKYFLOW_API_KEY = none →
        createFromEnv env none
          = Except.error (SkyflowMCPError.configuration
              "Either SKYFLOW_BEARER_TOKEN or SKYFLOW_API_KEY environment variable is required"
              none))
    ∧ (("SKYFLOW_VAULT_ID environment variable is required" : String)
          ≠ "SKYFLOW_VAULT_URL environment variable is required"
       ∧ ("SKYFLOW_VAULT_ID environment variable is required" : String)
          ≠ "Either SKYFLOW_BEARER_TOKEN or SKYFLOW_API_KEY environment variable is required"
       ∧ ("SKYFLOW_VAULT_URL environment variable is required" : String)
          ≠ "Either SKYFLOW_BEARER_TOKEN or SKYFLOW_API_KEY environment variable is required")
    ∧ (∀ (env : Env) (vid vurl b : String) (client : SkyflowMCP),
        strTruthy env.SKYFLOW_VAULT_ID = some vid →
        strTruthy env.SKYFLOW_VAULT_URL = some vurl →
        strTruthy env.SKYFLOW_BEARER_TOKEN = some b →
        createFromEnv env none = Except.ok client →
        client.config.credentials = SkyflowCredentials.token b) := by
  refine ⟨?_, ?_, ?_, ⟨by decide, by decide, by decide⟩, ?_⟩
  · intro env h
    rw [createFromEnv_none]
    simp only [h]
  · intro env vid h1 h2
    rw [createFromEnv_none]
    simp only [h1, h2]
  · intro env vid vurl h1 h2 hb hk
    rw [createFromEnv_none]
    simp only [h1, h2, hb, hk]
  · intro env vid vurl b client h1 h2 hb hok
    rw [createFromEnv_none] at hok
    simp only [h1, h2, hb] at hok
    have hc := create_ok_config _ _ hok
    rw [hc]

/-- Witness for C8: the three distinct failures at concrete environments,
and bearer-token precedence with both credential variables set. -/
theorem createFromEnv_guards_witness :
    createFromEnv ⟨none, some "https://abc123.vault.skyflowapis.com", none, some "b",
        none, none⟩ none
      = Except.error (SkyflowMCPError.configuration
          "SKYFLOW_VAULT_ID environment variable is required" none)
    ∧ createFromEnv ⟨some "vault-123", none, none, some "b", none, none⟩ none
      = Except.error (SkyflowMCPError.configuration
          "SKYFLOW_VAULT_URL environment variable is required" none)
    ∧ createFromEnv ⟨some "vault-123", some "https://abc123.vault.skyflowapis.com",
        none, none, none, none⟩ none
      = Except.error (SkyflowMCPError.configuration
          "Either SKYFLOW_BEARER_TOKEN or SKYFLOW_API_KEY environment variable is required"
          none)
    ∧ createFromEnv envFull none
      = Except.ok ⟨"vault-123",
          ⟨"vault-123", "https://abc123.vault.skyflowapis.com",
           SkyflowCredentials.token "bearer-tok", none, none, none⟩⟩
    ∧ (⟨"vault-123",
         ⟨"vault-123", "https://abc123.vault.skyflowapis.com",
          SkyflowCredentials.token "bearer-tok", none, none, none⟩⟩ : SkyflowMCP).config.credentials
      = SkyflowCredentials.token "bearer-tok" := by
  refine ⟨?_, ?_, ?_, rfl, ?_⟩
  · exact createFromEnv_guards.1 _ rfl
  · exact createFromEnv_guards.2.1 _ "vault-123" rfl rfl
  · exact createFromEnv_guards.2.2.1 _ "vault-123" "https://abc123.vault.skyflowapis.com"
      rfl rfl rfl rfl
  · exact createFromEnv_guards.2.2.2.2 envFull "vault-123"
      "https://abc123.vault.skyflowapis.com" "bearer-tok" _ rfl rfl rfl rfl

end SkyflowSdk

